import Mathlib

/-!
Verification development for the ctypes core of this repository:
`vm/src/stdlib/ctypes/primitive.rs`, `vm/src/stdlib/ctypes/dll.rs` and
`vm/src/stdlib/ctypes/pointer.rs`.

The host object model is embedded shallowly: a `PyObj` is one of the host
value kinds that the shown source inspects (`downcast_exact` succeeds on a
value exactly when the constructor matches, mirroring exact-class downcasts;
a Python `bool` is a distinct class from `int`, so it never exact-downcasts
to `PyInt`).  Machine strings keep Rust semantics: `rust_len` is the UTF-8
byte length used by `String::len`, and `rust_contains` is substring search
as in `str::contains`.
-/

namespace CtypesSpec

/-- A host value, by exact dynamic class.  Payloads carry exactly what the
source reads from them: byte contents for `PyBytes`/`PyByteArray`, the big
integer for `PyInt`, the character sequence for `PyStr`.  `other` stands for
any further host class, identified by its class name (used only in error
messages). -/
inductive PyObj where
  | bytes (bs : List Nat)
  | bytearray (bs : List Nat)
  | int (n : Int)
  | float (x : Rat)
  | str (s : String)
  | bool (b : Bool)
  | none
  | funcPtr (addr : Nat)
  | other (cls : String)
deriving DecidableEq

/-- The error kinds raised by the embedded code (`vm.new_type_error`,
`vm.new_value_error`, `vm.new_attribute_error`), each carrying its message. -/
inductive PyErr where
  | typeError (msg : String)
  | valueError (msg : String)
  | attributeError (msg : String)
deriving DecidableEq

/-- `value.class().name` for each host value kind. -/
def class_name : PyObj → String
  | .bytes _ => "bytes"
  | .bytearray _ => "bytearray"
  | .int _ => "int"
  | .float _ => "float"
  | .str _ => "str"
  | .bool _ => "bool"
  | .none => "NoneType"
  | .funcPtr _ => "CFuncPtr"
  | .other cls => cls

/-- `value.downcast_exact::<PyBytes>(vm)`, as the payload when the exact
class matches. -/
def downcastBytes : PyObj → Option (List Nat)
  | .bytes bs => some bs
  | _ => Option.none

/-- `value.downcast_exact::<PyByteArray>(vm)`. -/
def downcastByteArray : PyObj → Option (List Nat)
  | .bytearray bs => some bs
  | _ => Option.none

/-- `value.downcast_exact::<PyInt>(vm)`. -/
def downcastInt : PyObj → Option Int
  | .int n => some n
  | _ => Option.none

/-- `value.downcast_exact::<PyFloat>(vm)`. -/
def downcastFloat : PyObj → Option Rat
  | .float x => some x
  | _ => Option.none

/-- `value.downcast_exact::<PyStr>(vm)`. -/
def downcastStr : PyObj → Option String
  | .str s => some s
  | _ => Option.none

/-- `value.downcast_exact::<PyNone>(vm)`. -/
def downcastNone : PyObj → Option Unit
  | .none => some ()
  | _ => Option.none

/-- UTF-8 byte count of one character, as Rust counts it. -/
def char_utf8_len (c : Char) : Nat :=
  if c.toNat < 128 then 1
  else if c.toNat < 2048 then 2
  else if c.toNat < 65536 then 3
  else 4

/-- Rust `String::len`: the UTF-8 byte length. -/
def rust_len (s : String) : Nat :=
  s.toList.foldl (fun n c => n + char_utf8_len c) 0

/-- Does `pat` begin at the head of `hay`? -/
def matchesAt : List Char → List Char → Bool
  | _, [] => true
  | [], _ :: _ => false
  | a :: hs, b :: ps => a == b && matchesAt hs ps

/-- Does `pat` occur contiguously inside `hay`? -/
def containsSub : List Char → List Char → Bool
  | [], pat => pat.isEmpty
  | a :: rest, pat => matchesAt (a :: rest) pat || containsSub rest pat

/-- Rust `str::contains` with a string pattern: contiguous substring test. -/
def rust_contains (hay pat : String) : Bool :=
  containsSub hay.toList pat.toList

/-- `SIMPLE_TYPE_CHARS` from primitive.rs. -/
def SIMPLE_TYPE_CHARS : String := "cbBhHiIlLdfguzZqQ?"

/-- The integer-tag arm of `set_primitive`:
`"b" | "h" | "H" | "i" | "I" | "l" | "q" | "L" | "Q"` (`B` is separate). -/
def INT_TAGS : List String := ["b", "h", "H", "i", "I", "l", "q", "L", "Q"]

/-- The float-tag arm of `set_primitive`: `"f" | "d" | "g"`. -/
def FLOAT_TAGS : List String := ["f", "d", "g"]

/-- Modelled from the spec: the host conversion `u8::try_from_object`
called by the `B` arm of `set_primitive` lives outside the shown source
files; the spec says the integer is "coerced/truncated into the
unsigned-8-bit range" (300 becomes 44).  Euclidean remainder by 256 is that
truncation. -/
def u8_try_from_object (n : Int) : Int := n % 256

/-- `set_primitive(_type_, value, vm)` from primitive.rs, translated arm by
arm.  Note the faithful quirks of the source: in the `c` arm the results of
the length test and of the range test are discarded by `.is_ok()` (so any
exact bytes, bytearray or int passes), and the range test itself is the
disjunction `0 <= v || v <= 255`; the `?` arm ignores the value and returns
the none marker. -/
def set_primitive (ty : String) (value : PyObj) : Except PyErr PyObj :=
  if ty = "c" then
    if ((downcastBytes value).map (fun v => v.length == 1)).isSome
        || ((downcastByteArray value).map (fun v => v.length == 1)).isSome
        || ((downcastInt value).map
              (fun v => decide (0 ≤ v) || decide (v ≤ 255))).isSome then
      .ok value
    else
      .error (.typeError "one character bytes, bytearray or integer expected")
  else if ty = "u" then
    match (downcastStr value).map (fun v => v.length == 1) with
    | some b =>
      if b then .ok value
      else .error (.typeError "one character unicode string expected")
    | Option.none =>
      .error (.typeError
        ("unicode string expected instead of " ++ class_name value ++ " instance"))
  else if INT_TAGS.contains ty then
    if (downcastInt value).isSome then .ok value
    else
      .error (.typeError ("an integer is required (got type " ++ class_name value ++ ")"))
  else if FLOAT_TAGS.contains ty then
    if (downcastFloat value).isSome then .ok value
    else .error (.typeError ("must be real number, not " ++ class_name value))
  else if ty = "?" then
    .ok PyObj.none
  else if ty = "B" then
    match downcastInt value with
    | some n => .ok (.int (u8_try_from_object n))
    | Option.none =>
      .error (.typeError ("int expected instead of " ++ class_name value))
  else if ty = "z" then
    if (downcastInt value).isSome || (downcastBytes value).isSome then .ok value
    else
      .error (.typeError
        ("bytes or integer address expected instead of " ++ class_name value ++ " instance"))
  else if ty = "Z" then
    if (downcastStr value).isSome then .ok value
    else
      .error (.typeError
        ("unicode string or integer address expected instead of "
          ++ class_name value ++ " instance"))
  else
    if (downcastInt value).isSome || (downcastNone value).isSome then .ok value
    else .error (.typeError "cannot be converted to pointer")

/-- The `PySimpleType` container: its `_type_` tag string, the current
content of the `value` cell, and the `__abstract__` flag. -/
structure PySimpleType where
  type_tag : String
  value : PyObj
  abstract_flag : Bool
deriving DecidableEq

/-- The result of `vm.isinstance(cls.as_object(), PySimpleType::static_type())`
inside `tp_new`.  A class object is not an instance of the `_SimpleCData`
value type, so for every declaring class the host answers `Ok(false)`; the
call raises no error for a plain type argument.  `tp_new` then keeps only
`.is_ok()` of this result. -/
def isinstance_simplecdata (cls_is_base : Bool) : Except PyErr Bool :=
  .ok false

/-- `PySimpleType::tp_new` from primitive.rs.  `attr` is the outcome of
`vm.get_attribute(cls, "_type_")` (`Option.none` when the attribute is
absent); `cls_is_base` records whether the declaring class is exactly the
abstract base type.  The match on the attribute value plays the role of the
`vm.isinstance(&_type_, str_type)` test (only a `str` value is a string
instance in this embedding). -/
def tp_new (attr : Option PyObj) (cls_is_base : Bool) :
    Except PyErr PySimpleType :=
  match attr with
  | some t =>
    match t with
    | .str s =>
      if rust_len s ≠ 1 then
        .error (.valueError
          "class must define a '_type_' attribute which must be a string of length 1")
      else if !(rust_contains SIMPLE_TYPE_CHARS s) then
        .error (.attributeError
          ("class must define a '_type_' attribute which must be\na single character string containing one of "
            ++ SIMPLE_TYPE_CHARS ++ "."))
      else
        .ok { type_tag := s, value := PyObj.none,
              abstract_flag := (isinstance_simplecdata cls_is_base).isOk }
    | _ =>
      .error (.typeError "class must define a '_type_' string attribute")
  | Option.none =>
    .error (.attributeError "class must define a '_type_' attribute")

/-- Is the attribute value a string instance (the `vm.isinstance` str test
of `tp_new`)? -/
def is_str_instance : PyObj → Bool
  | .str _ => true
  | _ => false

/-- `PySimpleType::init` (`__init__`) from primitive.rs: with a value and a
non-abstract container it stores the validated content; with a value and an
abstract container it raises `TypeError("abstract class")`; with no value it
stores the per-tag default.  The pair returns the container state after the
call together with the raised error, if any (on error the state is returned
unchanged, as the source returns before any store). -/
def init (s : PySimpleType) (value : Option PyObj) :
    PySimpleType × Option PyErr :=
  match value with
  | some v =>
    if !s.abstract_flag then
      match set_primitive s.type_tag v with
      | .ok content => ({ s with value := content }, Option.none)
      | .error e => (s, some e)
    else
      (s, some (PyErr.typeError "abstract class"))
  | Option.none =>
    ({ s with value :=
        if s.type_tag = "c" ∨ s.type_tag = "u" then PyObj.bytes [0]
        else if ["b", "B", "h", "H", "i", "I", "l", "q", "L", "Q"].contains s.type_tag then
          PyObj.int 0
        else if ["f", "d", "g"].contains s.type_tag then PyObj.float 0
        else if s.type_tag = "?" then PyObj.bool false
        else PyObj.none },
      Option.none)

/-- The `value` property getter of `PySimpleType`: a clone of the cell
content. -/
def read_value (s : PySimpleType) : PyObj := s.value

/-- The `value` property setter of `PySimpleType`: validate through
`set_primitive`, then store; on a validation error the function returns
before the store, leaving the state unchanged. -/
def set_value (s : PySimpleType) (v : PyObj) : PySimpleType × Option PyErr :=
  match set_primitive s.type_tag v with
  | .ok content => ({ s with value := content }, Option.none)
  | .error e => (s, some e)

/-- The eighteen one-character tag strings of `SIMPLE_TYPE_CHARS`. -/
def ALPHABET_TAGS : List String :=
  ["c", "b", "B", "h", "H", "i", "I", "l", "L", "d", "f", "g", "u", "z", "Z",
   "q", "Q", "?"]

/-- `SharedLibrary` from dll.rs, abstracted over the loader state: the
exported symbol table, as a name-to-address map. -/
structure SharedLibrary where
  symbols : List (String × Nat)
deriving DecidableEq

/-- An object passed to `dlsym` as the handle: either it carries a
`SharedLibrary` payload, or it is any other host object (whose
`payload::<SharedLibrary>()` is `None`). -/
inductive HandleObj where
  | lib (slib : SharedLibrary)
  | nonHandle (cls : String)
deriving DecidableEq

/-- Outcome of `dlopen`: either a constructed handle, or a process abort
(the `.expect` panic, which unwinds/aborts rather than returning). -/
inductive DlopenOutcome where
  | handle (slib : SharedLibrary)
  | processAbort (msg : String)
deriving DecidableEq

/-- `dlopen(lib_path, vm)` from dll.rs, abstracted over the OS loader
outcome for the given path: `Library::new(lib_path).expect("Failed to load
library")` yields the handle when the loader succeeds and panics (aborting
the process) with the expect message when it fails.  No error value is ever
returned to the caller. -/
def dlopen (loaderResult : Except String SharedLibrary) : DlopenOutcome :=
  match loaderResult with
  | .ok slib => .handle slib
  | .error diag => .processAbort ("Failed to load library: " ++ diag)

/-- `dlsym(handle, func_name, ...)` from dll.rs: when the handle carries a
`SharedLibrary` payload, a successful `lib.get` wraps the address in a
`PyCFuncPtr`, and a failed lookup returns `Ok(vm.ctx.none())`; when the
handle is not a library object, it also returns `Ok(vm.ctx.none())`. -/
def dlsym (handle : HandleObj) (func_name : String) : Except PyErr PyObj :=
  match handle with
  | .lib slib =>
    match slib.symbols.lookup func_name with
    | some addr => .ok (.funcPtr addr)
    | Option.none => .ok PyObj.none
  | .nonHandle _ => .ok PyObj.none

/-- The per-tag default value exactly as the specification words it:
`c`/`u` a single zero byte; the integer tags integer 0; the float tags 0.0;
`?` boolean false; the pointer tags and the unannotated default the
null/none marker. -/
def spec_default_value (t : String) : PyObj :=
  if t = "c" ∨ t = "u" then PyObj.bytes [0]
  else if ["b", "B", "h", "H", "i", "I", "l", "L", "q", "Q"].contains t then
    PyObj.int 0
  else if ["f", "d", "g"].contains t then PyObj.float 0
  else if t = "?" then PyObj.bool false
  else PyObj.none

/-! ## Helper lemmas -/

theorem downcastInt_eq_some {v : PyObj} {n : Int}
    (h : downcastInt v = some n) : v = PyObj.int n := by
  cases v <;> simp [downcastInt] at h
  exact h ▸ rfl

/-- On every tag other than `?` and `B`, a successful `set_primitive` run
returns the input value itself. -/
theorem set_primitive_ok_identity (t : String) (v r : PyObj)
    (h1 : t ≠ "?") (h2 : t ≠ "B")
    (hok : set_primitive t v = Except.ok r) : r = v := by
  unfold set_primitive at hok
  repeat' split at hok
  all_goals
    first
      | exact Except.noConfusion hok
      | exact absurd (by assumption) h1
      | exact absurd (by assumption) h2
      | exact (Except.ok.inj hok).symm

/-! ## Claim theorems -/

/-- C1: in the source, `dlsym` on a valid handle whose symbol table lacks
the requested name returns `Ok` of the none marker, and `dlsym` on an
object that is not a library handle returns the very same `Ok` none — no
`SymbolNotFoundError`, no `InvalidHandleError`, and the two failures are
indistinguishable.  This evaluates the code at both failing inputs,
exhibiting the divergence from the claim. -/
theorem c1_dlsym_swallows_lookup_failure :
    dlsym (HandleObj.lib ⟨[("g", 7)]⟩) "missing" = Except.ok PyObj.none ∧
    dlsym (HandleObj.nonHandle "int") "missing" = Except.ok PyObj.none :=
  ⟨rfl, rfl⟩

/-- C2: in the source, `dlopen` on a path the OS loader cannot map panics
through `.expect("Failed to load library")`, aborting the process instead
of returning a `LoadError` to the caller.  This evaluates the code at a
failing loader outcome. -/
theorem c2_dlopen_aborts_on_loader_failure :
    dlopen (Except.error "No such file or directory") =
      DlopenOutcome.processAbort
        ("Failed to load library: No such file or directory") := by
  rfl

/-- C3: in the source, `tp_new` computes `__abstract__` as
`vm.isinstance(...).is_ok()`, which is true for every declaring class, so a
container declared by a genuine subtype (`cls_is_base = false`) still gets
the abstract flag, and initializing it with an explicit value raises
`TypeError "abstract class"` instead of validating and storing the value.
This evaluates the code at that failing input (tag `i`, value 42). -/
theorem c3_abstract_flag_always_true :
    tp_new (some (PyObj.str "i")) false = Except.ok ⟨"i", PyObj.none, true⟩ ∧
    init ⟨"i", PyObj.none, true⟩ (some (PyObj.int 42)) =
      (⟨"i", PyObj.none, true⟩, some (PyErr.typeError "abstract class")) :=
  ⟨rfl, rfl⟩

/-- C4: in the source, the `c` arm of `set_primitive` discards both the
length-1 test and the 0..255 range test through `.is_ok()` (and the range
test itself is an always-true disjunction), so a 2-byte byte-string and the
out-of-range integer 300 are both accepted instead of failing with the
`TypeError`.  This evaluates the code at both failing inputs. -/
theorem c4_tag_c_accepts_invalid_inputs :
    set_primitive "c" (PyObj.bytes [97, 98]) = Except.ok (PyObj.bytes [97, 98]) ∧
    set_primitive "c" (PyObj.int 300) = Except.ok (PyObj.int 300) :=
  ⟨rfl, rfl⟩

/-- On tag `B`, a successful `set_primitive` run forces an exact-int input
and returns its unsigned-8-bit truncation. -/
theorem set_primitive_B_char (v content : PyObj)
    (h : set_primitive "B" v = Except.ok content) :
    ∃ n : Int, v = PyObj.int n ∧ content = PyObj.int (u8_try_from_object n) := by
  cases v
  case int n => exact ⟨n, rfl, (Except.ok.inj h).symm⟩
  all_goals exact Except.noConfusion h

/-- C5: for tag `B`, `set_primitive` on any exact-int input succeeds with
the input truncated into the unsigned-8-bit range (in particular 300 yields
44), and on any non-int input fails with
`TypeError "int expected instead of {kind}"`.  The truncation itself
(`u8_try_from_object`) is modelled from the spec, the host conversion being
outside the shown source. -/
theorem c5_tag_B_truncation :
    (∀ n : Int, set_primitive "B" (PyObj.int n) =
        Except.ok (PyObj.int (u8_try_from_object n))) ∧
    set_primitive "B" (PyObj.int 300) = Except.ok (PyObj.int 44) ∧
    (∀ v : PyObj, downcastInt v = Option.none →
      set_primitive "B" v =
        Except.error (PyErr.typeError ("int expected instead of " ++ class_name v))) := by
  refine ⟨fun n => rfl, rfl, fun v hv => ?_⟩
  cases v <;> first | exact Option.noConfusion hv | rfl

/-- Witness for C5 at the concrete non-int input `"x"`. -/
theorem c5_witness :
    set_primitive "B" (PyObj.str "x") =
      Except.error (PyErr.typeError
        ("int expected instead of " ++ class_name (PyObj.str "x"))) :=
  c5_tag_B_truncation.2.2 (PyObj.str "x") rfl

/-- C6 counterexample: for tag `?` the setter accepts the integer 1 (no
error is raised), yet reading the accessor afterwards returns the none
marker, not a value observably equal to what was written — the `?` arm of
`set_primitive` discards the input.  This refutes the claim as stated over
every tag of the alphabet. -/
theorem c6_counterexample_bool_tag :
    (set_value ⟨"?", PyObj.none, true⟩ (PyObj.int 1)).2 = Option.none ∧
    read_value (set_value ⟨"?", PyObj.none, true⟩ (PyObj.int 1)).1 ≠ PyObj.int 1 := by
  exact ⟨rfl, fun h => PyObj.noConfusion h⟩

/-- C6 (amended): for every tag of the alphabet other than `?`, writing an
accepted value through the setter and then reading the accessor returns the
written value, except that tag `B` stores the unsigned-8-bit truncation of
the written integer, and that truncation is idempotent: re-writing the
read-back value stores the very same state.  (For `?` the setter accepts
any value but stores the none marker regardless.) -/
theorem c6_roundtrip_modulo_B :
    ∀ (ty : String) (v0 : PyObj) (ab : Bool) (v : PyObj) (s' : PySimpleType),
      ty ∈ ALPHABET_TAGS → ty ≠ "?" →
      set_value ⟨ty, v0, ab⟩ v = (s', Option.none) →
      (ty ≠ "B" → read_value s' = v) ∧
      (ty = "B" → ∃ n : Int, v = PyObj.int n ∧
        read_value s' = PyObj.int (u8_try_from_object n) ∧
        set_value s' (read_value s') = (s', Option.none)) := by
  intro ty v0 ab v s' hmem hq hset
  unfold set_value at hset
  rcases hsp : set_primitive ty v with e | content
  · rw [hsp] at hset
    exact absurd (congrArg Prod.snd hset) (by simp)
  · rw [hsp] at hset
    injection hset with h1 h2
    subst h1
    constructor
    · intro hB
      exact set_primitive_ok_identity ty v content hq hB hsp
    · intro hB
      subst hB
      obtain ⟨n, hvn, hc⟩ := set_primitive_B_char v content hsp
      subst hvn
      subst hc
      refine ⟨n, rfl, rfl, ?_⟩
      have hidem : u8_try_from_object (u8_try_from_object n) = u8_try_from_object n := by
        unfold u8_try_from_object
        exact Int.emod_emod_of_dvd n dvd_rfl
      have hcomp : set_value ⟨"B", PyObj.int (u8_try_from_object n), ab⟩
            (PyObj.int (u8_try_from_object n)) =
          (⟨"B", PyObj.int (u8_try_from_object (u8_try_from_object n)), ab⟩,
            Option.none) := rfl
      rw [hidem] at hcomp
      exact hcomp

/-- Witness for C6 at tag `B`, written value 300, stored value 44. -/
theorem c6_witness :
    (("B" : String) ≠ "B" → read_value ⟨"B", PyObj.int 44, true⟩ = PyObj.int 300) ∧
    (("B" : String) = "B" → ∃ n : Int, PyObj.int 300 = PyObj.int n ∧
      read_value ⟨"B", PyObj.int 44, true⟩ = PyObj.int (u8_try_from_object n) ∧
      set_value ⟨"B", PyObj.int 44, true⟩ (read_value ⟨"B", PyObj.int 44, true⟩) =
        (⟨"B", PyObj.int 44, true⟩, Option.none)) :=
  c6_roundtrip_modulo_B "B" PyObj.none true (PyObj.int 300) ⟨"B", PyObj.int 44, true⟩
    (by decide) (by decide) rfl

/-- C7: whenever `set_primitive` rejects a value for the container's tag,
the `value` setter returns that documented error and leaves the container's
stored value (indeed its whole state) unchanged — the store happens only
after validation succeeds. -/
theorem c7_setter_no_mutation_on_error :
    ∀ (s : PySimpleType) (v : PyObj) (e : PyErr),
      set_primitive s.type_tag v = Except.error e →
      set_value s v = (s, some e) := by
  intro s v e h
  unfold set_value
  rw [h]

/-- Witness for C7: writing a string to an `i` container fails with the
documented message and keeps the stored 0. -/
theorem c7_witness :
    set_value ⟨"i", PyObj.int 0, true⟩ (PyObj.str "a") =
      (⟨"i", PyObj.int 0, true⟩,
        some (PyErr.typeError "an integer is required (got type str)")) :=
  c7_setter_no_mutation_on_error ⟨"i", PyObj.int 0, true⟩ (PyObj.str "a")
    (PyErr.typeError "an integer is required (got type str)") rfl

/-- C8: for every tag in the fixed alphabet, `init` with no explicit value
stores exactly the default the specification words per tag (`c`/`u` a
single zero byte, the integer tags 0, the float tags 0.0, `?` false, the
pointer tags the none marker), and raises no error. -/
theorem c8_default_per_tag :
    ∀ (ts : String) (v0 : PyObj) (ab : Bool), ts ∈ ALPHABET_TAGS →
      init ⟨ts, v0, ab⟩ Option.none =
        (⟨ts, spec_default_value ts, ab⟩, Option.none) := by
  intro ts v0 ab h
  fin_cases h <;> rfl

/-- Witness for C8 at tag `i`: the default stored is the integer 0. -/
theorem c8_witness :
    init ⟨"i", PyObj.none, true⟩ Option.none =
      (⟨"i", spec_default_value "i", true⟩, Option.none) :=
  c8_default_per_tag "i" PyObj.none true (by decide)

/-- C9: `tp_new` validates the declaring type's `_type_` attribute: absent
attribute gives the "must define" `AttributeError`; a string attribute of
byte length other than 1 gives the "length 1" `ValueError`; a length-1
string outside `SIMPLE_TYPE_CHARS` gives the `AttributeError` enumerating
the alphabet; a non-string attribute gives a `TypeError`. -/
theorem c9_tag_declaration_validation :
    (∀ b : Bool, tp_new Option.none b =
      Except.error (PyErr.attributeError "class must define a '_type_' attribute")) ∧
    (∀ (s : String) (b : Bool), rust_len s ≠ 1 →
      tp_new (some (PyObj.str s)) b =
        Except.error (PyErr.valueError
          "class must define a '_type_' attribute which must be a string of length 1")) ∧
    (∀ (s : String) (b : Bool), rust_len s = 1 →
      rust_contains SIMPLE_TYPE_CHARS s = false →
      tp_new (some (PyObj.str s)) b =
        Except.error (PyErr.attributeError
          ("class must define a '_type_' attribute which must be\na single character string containing one of "
            ++ SIMPLE_TYPE_CHARS ++ "."))) ∧
    (∀ (v : PyObj) (b : Bool), is_str_instance v = false →
      tp_new (some v) b =
        Except.error (PyErr.typeError "class must define a '_type_' string attribute")) := by
  refine ⟨fun b => rfl, fun s b h => ?_, fun s b h1 h2 => ?_, fun v b h => ?_⟩
  · simp [tp_new, h]
  · simp [tp_new, h1, h2]
  · cases v <;> simp [is_str_instance] at h <;> rfl

/-- Witness for C9 at the concrete inputs of the claim: `_type_ = "ab"`,
`_type_ = "x"`, and a non-string `_type_`. -/
theorem c9_witness :
    tp_new (some (PyObj.str "ab")) false =
      Except.error (PyErr.valueError
        "class must define a '_type_' attribute which must be a string of length 1") ∧
    tp_new (some (PyObj.str "x")) false =
      Except.error (PyErr.attributeError
        ("class must define a '_type_' attribute which must be\na single character string containing one of "
          ++ SIMPLE_TYPE_CHARS ++ ".")) ∧
    tp_new (some (PyObj.int 3)) false =
      Except.error (PyErr.typeError "class must define a '_type_' string attribute") :=
  ⟨c9_tag_declaration_validation.2.1 "ab" false (by decide),
   c9_tag_declaration_validation.2.2.1 "x" false (by decide) (by decide),
   c9_tag_declaration_validation.2.2.2 (PyObj.int 3) false rfl⟩

/-- C10: every container that `tp_new` returns holds the none marker in its
value cell (`AtomicCell::new(vm.ctx.none())`), for every tag, so reading
the `value` accessor before initialization returns none rather than the
tag's default. -/
theorem c10_uninitialized_value_is_none :
    ∀ (attr : Option PyObj) (b : Bool) (s : PySimpleType),
      tp_new attr b = Except.ok s → read_value s = PyObj.none := by
  intro attr b s h
  unfold tp_new at h
  repeat' split at h
  all_goals
    first
      | exact Except.noConfusion h
      | (rw [← Except.ok.inj h]; rfl)

/-- Witness for C10 at a freshly constructed `i` container. -/
theorem c10_witness : read_value ⟨"i", PyObj.none, true⟩ = PyObj.none :=
  c10_uninitialized_value_is_none (some (PyObj.str "i")) false
    ⟨"i", PyObj.none, true⟩ rfl

end CtypesSpec
